import Mathlib

/-!
Shallow embedding of the run-agent orchestration script
(src/scripts/run-agent/run-agent.ts, backend-client.ts, session-manager.ts,
types.ts): prompt builders, the SDK-message translator, the backend client
event constructors, and the main control flow (resume attempt with fallback
to a full prompt), together with theorems settling the specification claims.
-/

namespace RunAgent

/-- JS truthiness of a string: empty string is falsy. -/
def strTruthy (s : String) : Bool := !(s == "")

/-- JS truthiness of an optional string (`undefined`/`null` and `""` falsy). -/
def optTruthy : Option String → Bool
  | some s => strTruthy s
  | none => false

/-- JS `a || b` for an optional string `a`: falls back when absent or empty. -/
def jsOr (a : Option String) (b : String) : String :=
  match a with
  | some s => if s == "" then b else s
  | none => b

/-- One entry of `AgentContext.messages` (types.ts). -/
structure ChatMessage where
  role : String
  content : String
  deriving DecidableEq

/-- `AgentContext` from types.ts: execution context fetched from the backend. -/
structure AgentContext where
  sessionId : Option String
  systemPrompts : List String
  currentPrompt : String
  messages : List ChatMessage
  deriving DecidableEq

/-- One content block of an SDK assistant message (types.ts):
`{ type: string; text?: string }`. -/
structure ContentBlock where
  type : String
  text : Option String
  deriving DecidableEq

/-- `SDKMessage` from types.ts: the agent runtime event variants. -/
inductive SDKMessage where
  | system (subtype : String) (session_id : String)
  | assistant (content : List ContentBlock)
  | result (subtype : String) (result : Option String) (errors : Option (List String))
  | partialMessage (content : List ContentBlock)
  deriving DecidableEq

/-- A JavaScript `Error` value: message, name, optional stack. -/
structure JsError where
  message : String
  name : String
  stack : Option String
  deriving DecidableEq

/-- `AgentCallbackInput` from types.ts: the callback payload POSTed to the
backend. Metadata is modelled as an association list of optional strings. -/
structure CallbackEvent where
  type : String
  role : Option String := none
  content : Option String := none
  metadata : List (String × Option String) := []
  subtype : Option String := none
  deriving DecidableEq

/-- `BackendClient.reportCompleted` (backend-client.ts): the event it posts. -/
def reportCompletedEvent (result : String) : CallbackEvent :=
  { type := "completed", role := some "assistant", content := some result }

/-- `BackendClient.reportError` (backend-client.ts): the event it posts. -/
def reportErrorEvent (e : JsError) : CallbackEvent :=
  { type := "error", content := some e.message,
    metadata := [("stack", e.stack), ("name", some e.name)] }

/-- `SessionManager.saveSession` (session-manager.ts): the event it posts. -/
def saveSessionEvent (sessionId : String) : CallbackEvent :=
  { type := "progress", subtype := some "session_init",
    metadata := [("sessionId", some sessionId)] }

/-- `new Error(msg)`: name is "Error", stack not modelled. -/
def mkError (msg : String) : JsError := ⟨msg, "Error", none⟩

/-- `buildFullPrompt` (run-agent.ts lines 28-44). -/
def buildFullPrompt (systemPrompts : List String) (userPrompt : String) : String :=
  let systemPart := String.intercalate "\n\n" (systemPrompts.filter strTruthy)
  if systemPart == "" then userPrompt
  else systemPart ++ "\n\n---\n\nUser Request:\n" ++ userPrompt

/-- The rendering of one historical message inside `buildFallbackPrompt`
(run-agent.ts line 58). -/
def renderHistoryEntry (m : ChatMessage) : String :=
  (if m.role == "user" then "User" else "Assistant") ++ ": " ++ m.content

/-- `buildFallbackPrompt` (run-agent.ts lines 49-66). -/
def buildFallbackPrompt (systemPrompts : List String)
    (messages : List ChatMessage) (currentPrompt : String) : String :=
  let systemPart := String.intercalate "\n\n" (systemPrompts.filter strTruthy)
  let historyPart := String.intercalate "\n\n" (messages.map renderHistoryEntry)
  let parts := [systemPart, historyPart, "User: " ++ currentPrompt].filter strTruthy
  String.intercalate "\n\n---\n\n" parts

/-- The filter `block.type === 'text' && block.text` used by the translator
(run-agent.ts lines 74 and 115). -/
def keepTextBlock (b : ContentBlock) : Bool :=
  b.type == "text" && optTruthy b.text

/-- `extractTextContent` (run-agent.ts lines 71-79). -/
def extractTextContent (m : SDKMessage) : String :=
  match m with
  | .assistant content =>
      String.intercalate "\n"
        ((content.filter keepTextBlock).map (fun b => b.text.getD ""))
  | _ => ""

/-- `handleMessage` (run-agent.ts lines 84-128), as the ordered list of
callback events it posts to the backend for one SDK message. -/
def handleMessage (m : SDKMessage) : List CallbackEvent :=
  match m with
  | .system subtype session_id =>
      if subtype == "init" then [saveSessionEvent session_id] else []
  | .assistant _ =>
      let content := extractTextContent m
      if content == "" then []
      else [{ type := "progress", role := some "assistant", content := some content }]
  | .result subtype result errors =>
      if subtype == "success" then
        [reportCompletedEvent (jsOr result "Task completed")]
      else
        [reportErrorEvent (mkError
          (jsOr (errors.map (String.intercalate ", ")) "Unknown error"))]
  | .partialMessage content =>
      let pContent :=
        String.join ((content.filter keepTextBlock).map (fun b => b.text.getD ""))
      if pContent == "" then []
      else [{ type := "progress", role := some "assistant",
              content := some pContent, subtype := some "partial" }]

/-! ### Backend client transport model (reportProgress) -/

/-- Outcome of the underlying `fetch` POST inside `reportProgress`: either the
promise resolves to a response (with ok status or not), or it rejects. -/
inductive PostOutcome where
  | responded (ok : Bool)
  | rejected (err : JsError)
  deriving DecidableEq

/-- `BackendClient.reportProgress` (backend-client.ts lines 40-57), as seen by
its caller: a resolved response of any status returns normally (a non-ok
status is only logged), while a rejected `fetch` call propagates out. -/
def reportProgress (event : CallbackEvent) (outcome : PostOutcome) :
    Except JsError Unit :=
  match outcome with
  | .responded _ => Except.ok ()
  | .rejected err => Except.error err

/-! ### General string lemmas used below -/

theorem intercalateGo_length_le (s : String) (l : List String) :
    ∀ acc : String, acc.length ≤ (String.intercalate.go acc s l).length := by
  induction l with
  | nil => intro acc; simp [String.intercalate.go]
  | cons a as ih =>
      intro acc
      rw [String.intercalate.go]
      calc acc.length ≤ (acc ++ s ++ a).length := by
            simp [String.length_append]; omega
        _ ≤ _ := ih _

theorem string_length_zero {s : String} (h : s.length = 0) : s = "" := by
  cases s with
  | mk data =>
      cases data with
      | nil => rfl
      | cons a t => simp [String.length] at h

theorem intercalate_cons_ne (sep a : String) (t : List String) (ha : a ≠ "") :
    String.intercalate sep (a :: t) ≠ "" := by
  rw [String.intercalate]
  intro h
  have h1 : a.length ≤ (String.intercalate.go a sep t).length :=
    intercalateGo_length_le sep t a
  rw [h] at h1
  have h0 : ("" : String).length = 0 := rfl
  rw [h0] at h1
  exact ha (string_length_zero (Nat.le_zero.mp h1))

theorem strTruthy_eq_decide (s : String) : strTruthy s = decide (s ≠ "") := by
  by_cases h : s = "" <;> simp [strTruthy, h]

/-! ### Specification-side formulations

Each `spec…`/`claim…` definition below follows the words of a spec sentence
or claim (not the source), so that the source embedding can be compared
against it. -/

/-- Claim-side formulation of the full-prompt builder with the minimal
amendment: the NON-EMPTY system prompts joined by a blank line followed by
the separator and "User Request:\n" + prompt, or the prompt verbatim when
there are no non-empty system prompts. -/
def specFullPrompt (systemPrompts : List String) (currentPrompt : String) : String :=
  let nonEmpty := systemPrompts.filter (fun s => decide (s ≠ ""))
  if nonEmpty = [] then currentPrompt
  else String.intercalate "\n\n" nonEmpty ++ "\n\n---\n\nUser Request:\n" ++ currentPrompt

/-- Claim C6 taken literally: all system prompts joined by a blank line then
the separator block, with the verbatim case only when the list of system
prompts is empty. -/
def claimFullPrompt (systemPrompts : List String) (currentPrompt : String) : String :=
  if systemPrompts = [] then currentPrompt
  else String.intercalate "\n\n" systemPrompts ++ "\n\n---\n\nUser Request:\n" ++ currentPrompt

/-- Claim C5's rendering of one history entry: a "User: "/"Assistant: "
prefix followed by the content. -/
def specRenderEntry (m : ChatMessage) : String :=
  (if m.role = "user" then "User: " else "Assistant: ") ++ m.content

/-- Claim C5's description of the fallback prompt: the non-empty system
prompts joined by a blank line; the rendered history entries joined by a
blank line; "User: " + currentPrompt; the three sections joined by
"\n\n---\n\n" with empty sections omitted. -/
def specFallbackPrompt (systemPrompts : List String)
    (messages : List ChatMessage) (currentPrompt : String) : String :=
  let sysSection := String.intercalate "\n\n" (systemPrompts.filter (fun s => decide (s ≠ "")))
  let histSection := String.intercalate "\n\n" (messages.map specRenderEntry)
  String.intercalate "\n\n---\n\n"
    ([sysSection, histSection, "User: " ++ currentPrompt].filter (fun s => decide (s ≠ "")))

/-- Amended claim C7, success side: the result text when present and
non-empty, else the literal "Task completed". -/
def specSuccessContent (result : Option String) : String :=
  match result with
  | some r => if r = "" then "Task completed" else r
  | none => "Task completed"

/-- Amended claim C7, error side: the error list joined with ", ", or the
literal "Unknown error" when that joined string is empty (list absent,
empty, or containing only empty text). -/
def specErrorContent (errors : Option (List String)) : String :=
  let joined := String.intercalate ", " (errors.getD [])
  if joined = "" then "Unknown error" else joined

/-- Amended claim C8's block selection: text-typed blocks whose text is
present and non-empty. -/
def specKeepBlock (b : ContentBlock) : Prop :=
  b.type = "text" ∧ b.text.getD "" ≠ ""

instance : DecidablePred specKeepBlock := by
  intro b; unfold specKeepBlock; infer_instance

/-- Amended claim C8, final assistant side: selected blocks joined by a
single newline; nothing emitted when the result is empty. -/
def specAssistantEvents (blocks : List ContentBlock) : List CallbackEvent :=
  let s := String.intercalate "\n"
    ((blocks.filter (fun b => decide (specKeepBlock b))).map (fun b => b.text.getD ""))
  if s = "" then []
  else [{ type := "progress", role := some "assistant", content := some s }]

/-- Amended claim C8, streaming side: selected blocks concatenated with no
separator, tagged with subtype "partial"; nothing emitted when empty. -/
def specPartialEvents (blocks : List ContentBlock) : List CallbackEvent :=
  let s := String.join
    ((blocks.filter (fun b => decide (specKeepBlock b))).map (fun b => b.text.getD ""))
  if s = "" then []
  else [{ type := "progress", role := some "assistant", content := some s,
          subtype := some "partial" }]

/-- Claim C8 taken literally for the final assistant case: ALL text-typed
blocks (empty text included) joined by a single newline. -/
def claimAssistantText (blocks : List ContentBlock) : String :=
  String.intercalate "\n"
    ((blocks.filter (fun b => decide (b.type = "text"))).map (fun b => b.text.getD ""))

/-! ### Refinement lemmas relating the source embedding to the
specification-side formulations -/

theorem buildFullPrompt_eq_spec (sp : List String) (cp : String) :
    buildFullPrompt sp cp = specFullPrompt sp cp := by
  unfold buildFullPrompt specFullPrompt
  have hf : sp.filter strTruthy = sp.filter (fun s => decide (s ≠ "")) := by
    congr 1
    funext s
    exact strTruthy_eq_decide s
  rw [← hf]
  cases h : sp.filter strTruthy with
  | nil => simp [String.intercalate]
  | cons a t =>
      have ha : strTruthy a := List.of_mem_filter (h ▸ List.mem_cons_self a t)
      have ha2 : a ≠ "" := by simpa [strTruthy] using ha
      have hne := intercalate_cons_ne "\n\n" a t ha2
      simp [hne]

theorem renderHistoryEntry_eq_spec (m : ChatMessage) :
    renderHistoryEntry m = specRenderEntry m := by
  unfold renderHistoryEntry specRenderEntry
  by_cases h : m.role = "user" <;> simp [h]

theorem buildFallbackPrompt_eq_spec (sp : List String) (ms : List ChatMessage) (cp : String) :
    buildFallbackPrompt sp ms cp = specFallbackPrompt sp ms cp := by
  unfold buildFallbackPrompt specFallbackPrompt
  have hm : ms.map renderHistoryEntry = ms.map specRenderEntry := by
    congr 1
    funext m
    exact renderHistoryEntry_eq_spec m
  have hp : ∀ l : List String, l.filter strTruthy = l.filter (fun s => decide (s ≠ "")) := by
    intro l
    congr 1
    funext s
    exact strTruthy_eq_decide s
  simp only [hm, hp]

theorem jsOr_success (result : Option String) :
    jsOr result "Task completed" = specSuccessContent result := by
  cases result with
  | none => rfl
  | some r => by_cases hr : r = "" <;> simp [jsOr, specSuccessContent, hr]

theorem jsOr_errors (errors : Option (List String)) :
    jsOr (errors.map (String.intercalate ", ")) "Unknown error" = specErrorContent errors := by
  cases errors with
  | none => simp [jsOr, specErrorContent, String.intercalate]
  | some l =>
      by_cases hl : String.intercalate ", " l = "" <;>
        simp [jsOr, specErrorContent, hl]

theorem keepTextBlock_eq_spec (b : ContentBlock) :
    keepTextBlock b = decide (specKeepBlock b) := by
  cases b with
  | mk type text =>
      cases text with
      | none => simp [keepTextBlock, specKeepBlock, optTruthy]
      | some t =>
          by_cases ht : t = "" <;> by_cases hty : type = "text" <;>
            simp [keepTextBlock, specKeepBlock, optTruthy, strTruthy, ht, hty]

/-! ### Main control flow (run-agent.ts `main`, lines 177-224)

`main` is sequential: fetch context, validate the prompt, attempt resume
when a (truthy) session id is present, on resume failure fall back to
building a prompt and running the full-prompt path, with a top-level catch
that reports the error and exits 1. The external agent runtime is a
parameter: one invocation yields a finite list of SDK messages, each handled
by `handleMessage`, and then either ends normally or throws. -/

/-- An HTTP call made by the process: the context GET or a callback POST. -/
inductive HttpCall where
  | fetchContext
  | post (event : CallbackEvent)
  deriving DecidableEq

/-- Outcome of driving one agent-runtime invocation to exhaustion: the SDK
messages handled in order, then normal completion or a thrown error. -/
inductive RunOutcome where
  | finished (msgs : List SDKMessage)
  | threw (msgs : List SDKMessage) (err : JsError)
  deriving DecidableEq

/-- The SDK messages handled during a run. -/
def RunOutcome.handled : RunOutcome → List SDKMessage
  | .finished ms => ms
  | .threw ms _ => ms

/-- Whether the run ended by throwing. -/
def RunOutcome.didThrow : RunOutcome → Bool
  | .finished _ => false
  | .threw _ _ => true

/-- The callback events posted while handling a list of SDK messages, in
order (`for await … await handleMessage(message)`). -/
def runEvents (msgs : List SDKMessage) : List CallbackEvent :=
  (msgs.map handleMessage).flatten

/-- The error thrown by the prompt validation in `main` (line 184). -/
def noPromptError : JsError := mkError "No prompt available in agent context"

/-- The prompt built in step 4 of `main` (lines 204-218): fallback prompt
when history is non-empty, else the full prompt. -/
def step4Prompt (ctx : AgentContext) : String :=
  if !ctx.messages.isEmpty then
    buildFallbackPrompt ctx.systemPrompts ctx.messages ctx.currentPrompt
  else buildFullPrompt ctx.systemPrompts ctx.currentPrompt

/-- Observable result of one `main` invocation: the ordered HTTP calls, the
prompt handed to `runWithFullPrompt` (none when the full-prompt path never
runs), and the exit code (none = normal return, exit 0). -/
structure MainResult where
  calls : List HttpCall
  fullPrompt : Option String
  exitCode : Option Nat
  deriving DecidableEq

/-- Step 4 of `main` plus the top-level catch: build the prompt, run the
full-prompt path, and report any thrown error before exiting 1. -/
def fullPhase (ctx : AgentContext) (fullRun : RunOutcome)
    (callsBefore : List HttpCall) : MainResult :=
  match fullRun with
  | .finished ms =>
      { calls := callsBefore ++ (runEvents ms).map HttpCall.post,
        fullPrompt := some (step4Prompt ctx), exitCode := none }
  | .threw ms err =>
      { calls := callsBefore ++ (runEvents ms).map HttpCall.post
          ++ [HttpCall.post (reportErrorEvent err)],
        fullPrompt := some (step4Prompt ctx), exitCode := some 1 }

/-- `main` (run-agent.ts lines 177-224), parameterised by the context-fetch
outcome and by the runtime behaviour of the resume and full-prompt runs
(each consulted only when the corresponding run is invoked). -/
def mainRun (fetch : Except JsError AgentContext)
    (resumeRun fullRun : RunOutcome) : MainResult :=
  match fetch with
  | .error e =>
      { calls := [HttpCall.fetchContext, HttpCall.post (reportErrorEvent e)],
        fullPrompt := none, exitCode := some 1 }
  | .ok ctx =>
      if ctx.currentPrompt == "" then
        { calls := [HttpCall.fetchContext, HttpCall.post (reportErrorEvent noPromptError)],
          fullPrompt := none, exitCode := some 1 }
      else if optTruthy ctx.sessionId then
        match resumeRun with
        | .finished ms =>
            { calls := HttpCall.fetchContext :: (runEvents ms).map HttpCall.post,
              fullPrompt := none, exitCode := none }
        | .threw ms _ =>
            fullPhase ctx fullRun
              (HttpCall.fetchContext :: (runEvents ms).map HttpCall.post)
      else fullPhase ctx fullRun [HttpCall.fetchContext]

/-- The startup environment validation (run-agent.ts lines 8-20) followed by
`main`: a missing (or empty, hence falsy) `BACKEND_URL` or `ACTIVITY_ID`
exits the process with code 1 before anything else runs; otherwise `main`
runs. Returns the HTTP calls made and the exit code. -/
def startupRun (backendUrl activityId : Option String)
    (fetch : Except JsError AgentContext) (resumeRun fullRun : RunOutcome) :
    List HttpCall × Option Nat :=
  if !optTruthy backendUrl then ([], some 1)
  else if !optTruthy activityId then ([], some 1)
  else
    let r := mainRun fetch resumeRun fullRun
    (r.calls, r.exitCode)

/-! ### Terminal-event accounting -/

/-- A terminal callback event: completed or error. -/
def isTerminal (e : CallbackEvent) : Bool :=
  e.type == "completed" || e.type == "error"

/-- A terminal HTTP call: a POST of a terminal event. -/
def isTerminalCall : HttpCall → Bool
  | .fetchContext => false
  | .post e => isTerminal e

/-- Number of terminal callback events among a list of HTTP calls. -/
def terminalCount (cs : List HttpCall) : Nat :=
  (cs.filter isTerminalCall).length

/-- Whether an SDK message is a result (terminal) runtime event. -/
def isResultMsg : SDKMessage → Bool
  | .result _ _ _ => true
  | _ => false

/-- Number of result runtime events in a message list. -/
def numResults (ms : List SDKMessage) : Nat :=
  (ms.filter isResultMsg).length

/-- The SDK messages `main` handles for the given context and run
behaviours, following its control flow. -/
def processedMsgs (ctx : AgentContext) (resumeRun fullRun : RunOutcome) :
    List SDKMessage :=
  if optTruthy ctx.sessionId then
    match resumeRun with
    | .finished ms => ms
    | .threw ms _ => ms ++ fullRun.handled
  else fullRun.handled

/-- Whether an exception escapes to the top-level catch of `main` for the
given context and run behaviours (prompt validation aside). -/
def escapedToCatch (ctx : AgentContext) (resumeRun fullRun : RunOutcome) : Bool :=
  if optTruthy ctx.sessionId then
    match resumeRun with
    | .finished _ => false
    | .threw _ _ => fullRun.didThrow
  else fullRun.didThrow

/-! ### Lemmas about the translator and the event traces -/

theorem handleMessage_terminal (m : SDKMessage) :
    ((handleMessage m).filter isTerminal).length = if isResultMsg m then 1 else 0 := by
  cases m with
  | system st sid =>
      by_cases h : st = "init" <;>
        simp [handleMessage, isResultMsg, h, saveSessionEvent, isTerminal]
  | assistant blocks =>
      by_cases h : extractTextContent (.assistant blocks) = "" <;>
        simp [handleMessage, isResultMsg, h, isTerminal]
  | result st r errs =>
      by_cases h : st = "success" <;>
        simp [handleMessage, isResultMsg, h, isTerminal, reportCompletedEvent, reportErrorEvent]
  | partialMessage blocks =>
      by_cases h : String.join ((blocks.filter keepTextBlock).map (fun b => b.text.getD "")) = "" <;>
        simp [handleMessage, isResultMsg, h, isTerminal]

theorem handleMessage_types (m : SDKMessage) (e : CallbackEvent)
    (he : e ∈ handleMessage m) :
    e.type = "progress" ∨ e.type = "completed" ∨ e.type = "error" := by
  cases m with
  | system st sid =>
      by_cases h : st = "init" <;> simp [handleMessage, h, saveSessionEvent] at he
      · subst he; left; rfl
  | assistant blocks =>
      by_cases h : extractTextContent (.assistant blocks) = "" <;>
        simp [handleMessage, h] at he
      · subst he; left; rfl
  | result st r errs =>
      by_cases h : st = "success" <;>
        simp [handleMessage, h, reportCompletedEvent, reportErrorEvent] at he <;>
        subst he
      · right; left; rfl
      · right; right; rfl
  | partialMessage blocks =>
      by_cases h : String.join ((blocks.filter keepTextBlock).map (fun b => b.text.getD "")) = "" <;>
        simp [handleMessage, h] at he
      · subst he; left; rfl

theorem terminal_runEvents (ms : List SDKMessage) :
    ((runEvents ms).filter isTerminal).length = numResults ms := by
  induction ms with
  | nil => rfl
  | cons m t ih =>
      simp only [runEvents, List.map_cons, List.flatten_cons, List.filter_append,
        List.length_append] at *
      rw [ih, handleMessage_terminal]
      by_cases h : isResultMsg m <;> simp [numResults, h, List.filter_cons] <;> omega

theorem terminalCount_posts (es : List CallbackEvent) :
    terminalCount (es.map HttpCall.post) = (es.filter isTerminal).length := by
  unfold terminalCount
  rw [List.filter_map]
  have hc : isTerminalCall ∘ HttpCall.post = isTerminal := by
    funext e
    rfl
  rw [hc, List.length_map]

theorem terminalCount_append (a b : List HttpCall) :
    terminalCount (a ++ b) = terminalCount a + terminalCount b := by
  simp [terminalCount, List.filter_append]

theorem terminalCount_fetch_cons (l : List HttpCall) :
    terminalCount (HttpCall.fetchContext :: l) = terminalCount l := by
  simp [terminalCount, List.filter_cons, isTerminalCall]

theorem numResults_append (a b : List SDKMessage) :
    numResults (a ++ b) = numResults a + numResults b := by
  simp [numResults, List.filter_append]

theorem terminalCount_fullPhase (ctx : AgentContext) (fr : RunOutcome) (cb : List HttpCall) :
    terminalCount (fullPhase ctx fr cb).calls =
      terminalCount cb + numResults fr.handled + (if fr.didThrow then 1 else 0) := by
  cases fr with
  | finished ms =>
      simp [fullPhase, RunOutcome.handled, RunOutcome.didThrow, terminalCount_append,
        terminalCount_posts, terminal_runEvents]
  | threw ms err =>
      simp only [fullPhase]
      rw [terminalCount_append, terminalCount_append, terminalCount_posts, terminal_runEvents]
      simp [RunOutcome.handled, RunOutcome.didThrow, terminalCount, isTerminalCall,
        isTerminal, reportErrorEvent]

theorem runEvents_types (ms : List SDKMessage) (e : CallbackEvent) (he : e ∈ runEvents ms) :
    e.type = "progress" ∨ e.type = "completed" ∨ e.type = "error" := by
  simp only [runEvents, List.mem_flatten] at he
  obtain ⟨l, hl, hel⟩ := he
  simp only [List.mem_map] at hl
  obtain ⟨m, hm, rfl⟩ := hl
  exact handleMessage_types m e hel

theorem mainRun_post_types (fetch : Except JsError AgentContext)
    (rr fr : RunOutcome) (e : CallbackEvent)
    (he : HttpCall.post e ∈ (mainRun fetch rr fr).calls) :
    e.type = "progress" ∨ e.type = "completed" ∨ e.type = "error" := by
  have hfull : ∀ (ctx : AgentContext) (cb : List HttpCall),
      HttpCall.post e ∈ (fullPhase ctx fr cb).calls →
      HttpCall.post e ∈ cb ∨ e ∈ runEvents fr.handled ∨ ∃ err, e = reportErrorEvent err := by
    intro ctx cb hmem
    cases fr with
    | finished ms =>
        simp [fullPhase, RunOutcome.handled] at hmem
        rcases hmem with h1 | h2
        · exact Or.inl h1
        · exact Or.inr (Or.inl h2)
    | threw ms err =>
        simp [fullPhase, RunOutcome.handled] at hmem
        rcases hmem with h1 | h2 | h3
        · exact Or.inl h1
        · exact Or.inr (Or.inl h2)
        · exact Or.inr (Or.inr ⟨err, h3⟩)
  cases fetch with
  | error err =>
      simp [mainRun] at he
      subst he
      right; right; rfl
  | ok ctx =>
      by_cases hp : ctx.currentPrompt == ""
      · simp [mainRun, hp] at he
        subst he
        right; right; rfl
      · by_cases hs : optTruthy ctx.sessionId
        · cases rr with
          | finished ms =>
              simp [mainRun, hp, hs] at he
              exact runEvents_types ms e he
          | threw ms err =>
              simp only [mainRun, hp, hs, Bool.false_eq_true, if_false, if_true] at he
              rcases hfull ctx _ he with h1 | h2 | ⟨err2, rfl⟩
              · simp at h1
                exact runEvents_types ms e h1
              · exact runEvents_types _ e h2
              · right; right; rfl
        · simp only [mainRun, hp, hs, Bool.false_eq_true, if_false, if_true] at he
          rcases hfull ctx _ he with h1 | h2 | ⟨err2, rfl⟩
          · simp at h1
          · exact runEvents_types _ e h2
          · right; right; rfl

theorem c1_count (ctx : AgentContext) (rr fr : RunOutcome) (h : ctx.currentPrompt ≠ "") :
    terminalCount (mainRun (Except.ok ctx) rr fr).calls =
      numResults (processedMsgs ctx rr fr) +
        (if escapedToCatch ctx rr fr then 1 else 0) := by
  have hb : (ctx.currentPrompt == "") = false := beq_eq_false_iff_ne.mpr h
  by_cases hs : optTruthy ctx.sessionId
  · cases rr with
    | finished ms =>
        simp only [mainRun, hb, Bool.false_eq_true, if_false, hs, if_true,
          processedMsgs, escapedToCatch]
        rw [terminalCount_fetch_cons, terminalCount_posts, terminal_runEvents]
        simp
    | threw ms err =>
        simp only [mainRun, hb, Bool.false_eq_true, if_false, hs, if_true,
          processedMsgs, escapedToCatch]
        rw [terminalCount_fullPhase, terminalCount_fetch_cons, terminalCount_posts,
          terminal_runEvents, numResults_append]
  · simp only [mainRun, hb, Bool.false_eq_true, if_false, hs, if_true,
      processedMsgs, escapedToCatch]
    rw [terminalCount_fullPhase]
    have h0 : terminalCount [HttpCall.fetchContext] = 0 := rfl
    rw [h0]
    by_cases ht : fr.didThrow <;> simp [ht]


/-! ### Claim theorems -/

/-- Context for the C1 counterexample: session id present, valid prompt, and
a resumed run that finishes without emitting any runtime event. -/
def ctxNoEvents : AgentContext := ⟨some "sid", [], "P", []⟩

/-- C1 counterexample: an invocation that gets past context fetch (fetch
succeeds, prompt valid) whose runtime emits no events sends ZERO terminal
callback events, not exactly one. -/
theorem c1_claim_counterexample :
    terminalCount (mainRun (Except.ok ctxNoEvents)
      (RunOutcome.finished []) (RunOutcome.finished [])).calls = 0 ∧
    terminalCount (mainRun (Except.ok ctxNoEvents)
      (RunOutcome.finished []) (RunOutcome.finished [])).calls ≠ 1 := by
  constructor
  · rfl
  · decide

/-- C1 (amended): for every invocation past context fetch, the number of
terminal callback events sent equals the number of result runtime events
processed, plus one when an exception escapes to the top-level catch; every
other posted event is a progress event. -/
theorem c1_terminal_events (ctx : AgentContext) (resumeRun fullRun : RunOutcome)
    (h : ctx.currentPrompt ≠ "") :
    terminalCount (mainRun (Except.ok ctx) resumeRun fullRun).calls =
      numResults (processedMsgs ctx resumeRun fullRun) +
        (if escapedToCatch ctx resumeRun fullRun then 1 else 0) ∧
    ∀ e : CallbackEvent,
      HttpCall.post e ∈ (mainRun (Except.ok ctx) resumeRun fullRun).calls →
        isTerminal e = true ∨ e.type = "progress" :=
  ⟨c1_count ctx resumeRun fullRun h, fun e he =>
    match mainRun_post_types (Except.ok ctx) resumeRun fullRun e he with
    | Or.inl hp => Or.inr hp
    | Or.inr (Or.inl hc) => Or.inl (by simp [isTerminal, hc])
    | Or.inr (Or.inr herr) => Or.inl (by simp [isTerminal, herr])⟩

/-- Context used by the C1 witness. -/
def ctxOneResult : AgentContext := ⟨none, [], "P", []⟩

/-- Witness for C1 (amended) at a concrete context and runtime behaviour. -/
theorem c1_terminal_events_witness :
    terminalCount (mainRun (Except.ok ctxOneResult) (RunOutcome.finished [])
        (RunOutcome.finished [SDKMessage.result "success" none none])).calls =
      numResults (processedMsgs ctxOneResult (RunOutcome.finished [])
        (RunOutcome.finished [SDKMessage.result "success" none none])) +
        (if escapedToCatch ctxOneResult (RunOutcome.finished [])
            (RunOutcome.finished [SDKMessage.result "success" none none]) then 1 else 0) ∧
    ∀ e : CallbackEvent,
      HttpCall.post e ∈ (mainRun (Except.ok ctxOneResult) (RunOutcome.finished [])
        (RunOutcome.finished [SDKMessage.result "success" none none])).calls →
        isTerminal e = true ∨ e.type = "progress" :=
  c1_terminal_events ctxOneResult (RunOutcome.finished [])
    (RunOutcome.finished [SDKMessage.result "success" none none]) (by decide)

/-- C2: with a (truthy) session id present and a resume attempt that throws,
main proceeds to the step-4 fallback phase exactly once: the full-prompt run
is invoked with the constructed prompt, and the result of the invocation is
independent of the thrown resume error, which is therefore never sent to
the backend. -/
theorem c2_resume_fallback (ctx : AgentContext) (ms : List SDKMessage)
    (err : JsError) (fullRun : RunOutcome)
    (hP : ctx.currentPrompt ≠ "") (hS : optTruthy ctx.sessionId = true) :
    mainRun (Except.ok ctx) (RunOutcome.threw ms err) fullRun
      = fullPhase ctx fullRun
          (HttpCall.fetchContext :: (runEvents ms).map HttpCall.post) ∧
    (mainRun (Except.ok ctx) (RunOutcome.threw ms err) fullRun).fullPrompt
      = some (step4Prompt ctx) ∧
    ∀ err2 : JsError, mainRun (Except.ok ctx) (RunOutcome.threw ms err) fullRun
      = mainRun (Except.ok ctx) (RunOutcome.threw ms err2) fullRun := by
  have hb : (ctx.currentPrompt == "") = false := beq_eq_false_iff_ne.mpr hP
  refine ⟨?_, ?_, ?_⟩
  · simp [mainRun, hb, hS]
  · simp only [mainRun, hb, Bool.false_eq_true, if_false, hS, if_true]
    cases fullRun <;> simp [fullPhase]
  · intro err2
    simp [mainRun, hb, hS]

/-- Context and error used by the C2 witness. -/
def ctxResume : AgentContext := ⟨some "sid", ["S"], "P", [⟨"user", "hi"⟩]⟩

/-- Error used by the C2 witness. -/
def resumeErr : JsError := mkError "resume failed"

/-- Witness for C2 at a concrete context, resume error and full run. -/
theorem c2_resume_fallback_witness :
    (mainRun (Except.ok ctxResume) (RunOutcome.threw [] resumeErr)
        (RunOutcome.finished [])).fullPrompt = some (step4Prompt ctxResume) :=
  (c2_resume_fallback ctxResume [] resumeErr (RunOutcome.finished [])
    (by decide) (by decide)).2.1

/-- C3: with a (truthy) session id present and a resume attempt that
completes without throwing, the full-prompt path never runs (so neither
prompt builder is invoked), main returns normally, and the invocation is
independent of the would-be full-prompt run behaviour. -/
theorem c3_resume_success (ctx : AgentContext) (ms : List SDKMessage)
    (fullRun : RunOutcome)
    (hP : ctx.currentPrompt ≠ "") (hS : optTruthy ctx.sessionId = true) :
    (mainRun (Except.ok ctx) (RunOutcome.finished ms) fullRun).fullPrompt = none ∧
    (mainRun (Except.ok ctx) (RunOutcome.finished ms) fullRun).exitCode = none ∧
    (mainRun (Except.ok ctx) (RunOutcome.finished ms) fullRun).calls
      = HttpCall.fetchContext :: (runEvents ms).map HttpCall.post ∧
    ∀ fullRun2 : RunOutcome,
      mainRun (Except.ok ctx) (RunOutcome.finished ms) fullRun
        = mainRun (Except.ok ctx) (RunOutcome.finished ms) fullRun2 := by
  have hb : (ctx.currentPrompt == "") = false := beq_eq_false_iff_ne.mpr hP
  refine ⟨?_, ?_, ?_, ?_⟩ <;> simp [mainRun, hb, hS]

/-- Witness for C3 at a concrete context and resumed run. -/
theorem c3_resume_success_witness :
    (mainRun (Except.ok ctxNoEvents) (RunOutcome.finished [])
      (RunOutcome.finished [])).fullPrompt = none :=
  (c3_resume_success ctxNoEvents [] (RunOutcome.finished [])
    (by decide) (by decide)).1

/-- A transport-level rejection of the callback POST. -/
def transportErr : JsError := ⟨"fetch failed", "TypeError", none⟩

/-- C4 counterexample: when the underlying POST rejects (transport failure,
not an HTTP status), reportProgress propagates the rejection to its caller
instead of swallowing it. -/
theorem c4_claim_counterexample :
    reportProgress { type := "progress" } (PostOutcome.rejected transportErr)
      = Except.error transportErr ∧
    reportProgress { type := "progress" } (PostOutcome.rejected transportErr)
      ≠ Except.ok () :=
  ⟨rfl, fun h => Except.noConfusion h⟩

/-- C4 (amended): for every CallbackEvent and every RESOLVED HTTP response
(success or not; a non-success status is only logged), reportProgress
returns normally to its caller; only a rejected transport call propagates. -/
theorem c4_reportProgress_amended (event : CallbackEvent) (ok : Bool) :
    reportProgress event (PostOutcome.responded ok) = Except.ok () := rfl

/-- C5: buildFallbackPrompt agrees with the claim's description on all
inputs, and on the claim's concrete instance. -/
theorem c5_buildFallbackPrompt :
    (∀ (sp : List String) (ms : List ChatMessage) (cp : String),
        buildFallbackPrompt sp ms cp = specFallbackPrompt sp ms cp) ∧
    buildFallbackPrompt ["S"] [⟨"user", "hi"⟩] "P"
      = "S\n\n---\n\nUser: hi\n\n---\n\nUser: P" :=
  ⟨buildFallbackPrompt_eq_spec, by decide⟩

/-- C6 counterexample: with a single empty system prompt the code returns
the prompt verbatim, while the claim as stated (all system prompts joined,
verbatim only when there are NO system prompts) predicts a different
string. -/
theorem c6_claim_counterexample :
    buildFullPrompt [""] "P" = "P" ∧
    claimFullPrompt [""] "P" = "\n\n---\n\nUser Request:\nP" ∧
    buildFullPrompt [""] "P" ≠ claimFullPrompt [""] "P" := by
  refine ⟨rfl, by decide, by decide⟩

/-- C6 (amended): buildFullPrompt joins the NON-EMPTY system prompts with a
blank line before the separator block, and returns the prompt verbatim
when there is no non-empty system prompt; the claim's concrete instances
hold as stated. -/
theorem c6_buildFullPrompt_amended :
    (∀ (sp : List String) (cp : String), buildFullPrompt sp cp = specFullPrompt sp cp) ∧
    buildFullPrompt ["S1", "S2"] "P" = "S1\n\nS2\n\n---\n\nUser Request:\nP" ∧
    buildFullPrompt [] "P" = "P" :=
  ⟨buildFullPrompt_eq_spec, by decide, rfl⟩

/-- C7 counterexample: a success result whose result field is PRESENT but
empty is reported with the fallback text "Task completed", not with the
provided (empty) result text as the claim states. -/
theorem c7_claim_counterexample :
    handleMessage (SDKMessage.result "success" (some "") none)
      = [reportCompletedEvent "Task completed"] ∧
    handleMessage (SDKMessage.result "success" (some "") none)
      ≠ [reportCompletedEvent ""] :=
  ⟨rfl, by decide⟩

/-- C7 (amended): a success result is reported as completed with the result
text when present and non-empty, else the literal "Task completed"; any
other subtype is reported as an error with the error list joined by ", ",
or the literal "Unknown error" when that join is empty. -/
theorem c7_result_translation (st : String) (result : Option String)
    (errors : Option (List String)) :
    handleMessage (SDKMessage.result st result errors) =
      if st = "success" then [reportCompletedEvent (specSuccessContent result)]
      else [reportErrorEvent (mkError (specErrorContent errors))] := by
  by_cases h : st = "success" <;> simp [handleMessage, h, jsOr_success, jsOr_errors]

/-- Blocks used by the C8 counterexample: a text block with empty text
between two non-empty ones. -/
def mixedBlocks : List ContentBlock :=
  [⟨"text", some "a"⟩, ⟨"text", some ""⟩, ⟨"text", some "b"⟩]

/-- C8 counterexample: the translator drops text-typed blocks with empty
text before joining with a newline, so its output differs from the claim's
"all text-typed content blocks joined by a single newline". -/
theorem c8_claim_counterexample :
    extractTextContent (SDKMessage.assistant mixedBlocks) = "a\nb" ∧
    claimAssistantText mixedBlocks = "a\n\nb" ∧
    extractTextContent (SDKMessage.assistant mixedBlocks)
      ≠ claimAssistantText mixedBlocks := by
  refine ⟨rfl, by decide, by decide⟩

/-- C8 (amended): a final assistant event emits the text-typed blocks WITH
NON-EMPTY TEXT joined by a single newline (nothing when empty); a streaming
event emits them concatenated with no separator tagged subtype "partial"
(nothing when empty). -/
theorem c8_assistant_translation (blocks : List ContentBlock) :
    handleMessage (SDKMessage.assistant blocks) = specAssistantEvents blocks ∧
    handleMessage (SDKMessage.partialMessage blocks) = specPartialEvents blocks := by
  have hfb : blocks.filter keepTextBlock
      = blocks.filter (fun b => decide (specKeepBlock b)) := by
    congr 1
    funext b
    exact keepTextBlock_eq_spec b
  constructor
  · simp only [handleMessage, extractTextContent, specAssistantEvents, hfb]
    by_cases h : String.intercalate "\n"
        ((blocks.filter (fun b => decide (specKeepBlock b))).map (fun b => b.text.getD "")) = "" <;>
      simp [h]
  · simp only [handleMessage, specPartialEvents, hfb]
    by_cases h : String.join
        ((blocks.filter (fun b => decide (specKeepBlock b))).map (fun b => b.text.getD "")) = "" <;>
      simp [h]

/-- C9: a missing BACKEND_URL or ACTIVITY_ID environment variable makes the
process exit with code 1 having made zero HTTP calls, whatever the backend
and runtime would have done. -/
theorem c9_missing_env (backendUrl activityId : Option String)
    (fetch : Except JsError AgentContext) (resumeRun fullRun : RunOutcome)
    (h : backendUrl = none ∨ activityId = none) :
    startupRun backendUrl activityId fetch resumeRun fullRun = ([], some 1) := by
  rcases h with rfl | rfl
  · simp [startupRun, optTruthy]
  · by_cases hb : optTruthy backendUrl <;> simp [startupRun, hb, optTruthy]

/-- Witness for C9 with BACKEND_URL absent. -/
theorem c9_missing_env_witness :
    startupRun none (some "act") (Except.error (mkError "x"))
      (RunOutcome.finished []) (RunOutcome.finished []) = ([], some 1) :=
  c9_missing_env none (some "act") (Except.error (mkError "x"))
    (RunOutcome.finished []) (RunOutcome.finished []) (Or.inl rfl)

/-- C10: in buildFallbackPrompt a history entry is rendered with the
"Assistant: " prefix exactly when its role is not the string "user", and
with "User: " exactly when it is; shown also on a concrete prompt built
from a role-"system" message. -/
theorem c10_history_role_rendering :
    (∀ m : ChatMessage, m.role ≠ "user" →
        renderHistoryEntry m = "Assistant: " ++ m.content) ∧
    (∀ m : ChatMessage, m.role = "user" →
        renderHistoryEntry m = "User: " ++ m.content) ∧
    buildFallbackPrompt [] [⟨"system", "x"⟩] "P" = "Assistant: x\n\n---\n\nUser: P" := by
  refine ⟨?_, ?_, by decide⟩
  · intro m hm
    rw [renderHistoryEntry_eq_spec]
    simp [specRenderEntry, hm]
  · intro m hm
    rw [renderHistoryEntry_eq_spec]
    simp [specRenderEntry, hm]

/-- Witness for C10 at a concrete non-user role. -/
theorem c10_history_role_rendering_witness :
    renderHistoryEntry ⟨"system", "x"⟩ = "Assistant: " ++ "x" :=
  c10_history_role_rendering.1 ⟨"system", "x"⟩ (by decide)

end RunAgent
